import Mathlib

/-!
Verification development for the open-resume-api PDF generation core.

The embedding models `src/services/pdf_generator.py` (class `PDFGenerator`)
and the data model of `src/models/resume_models.py`.  Python strings become
`String`, optional fields become `Option`, dicts become association lists,
machine-level PDF serialization (reportlab `doc.build`) is abstracted to the
ordered sequence of flowable blocks handed to it (the "story"); each block
records its originating builder (header or one of the five sections), its
text, its style role and the resolved style values attached to it.
Exceptions become `Except String`.
-/

/-- Python `str.strip()` whitespace set restricted to the ASCII whitespace
characters (space, tab, newline, carriage return, vertical tab, form feed). -/
def isPyWhitespace (c : Char) : Bool :=
  c == ' ' || c == '\t' || c == '\n' || c == '\r' ||
  c == Char.ofNat 11 || c == Char.ofNat 12

/-- Drop trailing characters satisfying `p` (helper for `str.strip`). -/
def dropTrail (p : Char → Bool) (l : List Char) : List Char :=
  (l.reverse.dropWhile p).reverse

/-- Python `str.strip()` on the character list. -/
def pyStripList (l : List Char) : List Char :=
  dropTrail isPyWhitespace (l.dropWhile isPyWhitespace)

/-- Python `str.strip()`. -/
def pyStrip (s : String) : String :=
  ⟨pyStripList s.data⟩

/-- Python `str.lower()` restricted to ASCII letters. -/
def pyLowerChar (c : Char) : Char :=
  if 'A' ≤ c && c ≤ 'Z' then Char.ofNat (c.toNat + 32) else c

/-- Python `str.lower()` restricted to ASCII letters. -/
def pyLower (s : String) : String :=
  ⟨s.data.map pyLowerChar⟩

/-- Python `str.isdigit()` restricted to ASCII digits:
true iff the string is non-empty and all characters are `0`-`9`. -/
def pyIsdigit (s : String) : Bool :=
  !s.data.isEmpty && s.data.all Char.isDigit

/-- Value of one hexadecimal digit, by code point
(digits 48-57, lowercase a-f 97-102, uppercase A-F 65-70). -/
def hexDigitVal (c : Char) : Option Nat :=
  let n := c.toNat
  if 48 ≤ n && n ≤ 57 then some (n - 48)
  else if 97 ≤ n && n ≤ 102 then some (n - 87)
  else if 65 ≤ n && n ≤ 70 then some (n - 55)
  else none

/-- Value of one decimal digit, by code point. -/
def decDigitVal (c : Char) : Option Nat :=
  let n := c.toNat
  if 48 ≤ n && n ≤ 57 then some (n - 48) else none

/-- Python `int(s, base)` on a non-empty all-digit string; `none`
on the empty string or any non-digit character (`ValueError`). -/
def parseNatBase (digVal : Char → Option Nat) (base : Nat) (l : List Char) : Option Nat :=
  match l with
  | [] => none
  | _ =>
    l.foldl (fun acc c =>
      match acc, digVal c with
      | some a, some d => some (a * base + d)
      | _, _ => none) (some 0)

/-- Model of `reportlab.lib.colors.HexColor` on a string argument, returning
the parsed integer color value: a leading `#` selects base 16 (with 3- and
4-digit shorthand doubled per character), a leading `0x` selects base 16,
anything else is parsed as a decimal integer; a parse failure is the
`ValueError` the library raises. -/
def hexColor (val : String) : Except String Nat :=
  match val.data with
  | '#' :: rest =>
    let rest := if rest.length == 3 || rest.length == 4
      then rest.flatMap (fun c => [c, c]) else rest
    match parseNatBase hexDigitVal 16 rest with
    | some n => .ok n
    | none => .error ("ValueError: invalid literal for int with base 16: " ++ val)
  | '0' :: x :: rest =>
    if x == 'x' || x == 'X' then
      match parseNatBase hexDigitVal 16 rest with
      | some n => .ok n
      | none => .error ("ValueError: invalid literal for int with base 16: " ++ val)
    else
      match parseNatBase decDigitVal 10 val.data with
      | some n => .ok n
      | none => .error ("ValueError: invalid literal for int with base 10: " ++ val)
  | _ =>
    match parseNatBase decDigitVal 10 val.data with
    | some n => .ok n
    | none => .error ("ValueError: invalid literal for int with base 10: " ++ val)

/-- Python `d.get(key, default)` applied to `(optDict or \x7b\x7d)`:
a `None` dict behaves as the empty dict. -/
def pyDictGet {α : Type} (d : Option (List (String × α))) (key : String) (dflt : α) : α :=
  match d with
  | none => dflt
  | some m => (m.lookup key).getD dflt

/-- Python `s or default` for an optional string (`None` and `""` are falsy). -/
def pyOrStr (o : Option String) (dflt : String) : String :=
  match o with
  | none => dflt
  | some s => if s == "" then dflt else s

/-- Python truthiness of an `Optional[str]` (`None` and `""` are falsy). -/
def pyTruthy (o : Option String) : Bool :=
  match o with
  | none => false
  | some s => s != ""

/-- `PersonalInfo` from `resume_models.py` (required name and email,
optional phone, url, summary, location). -/
structure PersonalInfo where
  name : String
  email : String
  phone : Option String := none
  url : Option String := none
  summary : Option String := none
  location : Option String := none
deriving DecidableEq, Repr

/-- `WorkExperience` from `resume_models.py`. -/
structure WorkExperience where
  company : String
  jobTitle : String
  date : String
  descriptions : List String := []
deriving DecidableEq, Repr

/-- `Education` from `resume_models.py`. -/
structure Education where
  school : String
  degree : String
  date : String
  gpa : Option String := none
  descriptions : List String := []
deriving DecidableEq, Repr

/-- `Project` from `resume_models.py`. -/
structure Project where
  name : String
  date : String
  descriptions : List String := []
deriving DecidableEq, Repr

/-- `Skill` (one skill category) from `resume_models.py`. -/
structure Skill where
  category : String
  skills : List String
deriving DecidableEq, Repr

/-- `Custom` section from `resume_models.py`. -/
structure Custom where
  descriptions : List String := []
deriving DecidableEq, Repr

/-- `ResumeSettings` from `resume_models.py`: every field is `Optional`
in the pydantic model, with the listed defaults.  There is no field for a
section display order. -/
structure ResumeSettings where
  themeColor : Option String := some "#1f2937"
  fontFamily : Option String := some "OpenSans"
  fontSize : Option String := some "11"
  documentSize : Option String := some "Letter"
  formToHeading : Option (List (String × String)) := some
    [("workExperiences", "WORK EXPERIENCE"), ("educations", "EDUCATION"),
     ("projects", "PROJECTS"), ("skills", "SKILLS"), ("custom", "ADDITIONAL")]
  formToShow : Option (List (String × Bool)) := some
    [("workExperiences", true), ("educations", true), ("projects", true),
     ("skills", true), ("custom", true)]
deriving DecidableEq, Repr

/-- `ResumeData` from `resume_models.py`. -/
structure ResumeData where
  personalInfo : PersonalInfo
  workExperiences : List WorkExperience := []
  educations : List Education := []
  projects : List Project := []
  skills : List Skill := []
  custom : Custom := {}
  settings : ResumeSettings := {}
deriving DecidableEq, Repr

/-- The `descriptions` pydantic validator of `WorkExperience`
(`[desc.strip() for desc in v if desc.strip()]`). -/
def validateDescriptions (v : List String) : List String :=
  v.filterMap (fun desc => if pyStrip desc != "" then some (pyStrip desc) else none)

/-- The `skills` pydantic validator of `Skill` (same list comprehension). -/
def validateSkills (v : List String) : List String :=
  v.filterMap (fun skill => if pyStrip skill != "" then some (pyStrip skill) else none)

/-- Construction of a `WorkExperience` through pydantic: the
`validate_descriptions` validator rewrites the descriptions list. -/
def WorkExperience.make (company jobTitle date : String)
    (descriptions : List String) : WorkExperience :=
  ⟨company, jobTitle, date, validateDescriptions descriptions⟩

/-- Construction of a `Skill` through pydantic: the `validate_skills`
validator rewrites the skills list. -/
def Skill.make (category : String) (skills : List String) : Skill :=
  ⟨category, validateSkills skills⟩

/-- The five section kinds of the generator. -/
inductive SectionKey
  | workExperiences
  | educations
  | projects
  | skills
  | custom
deriving DecidableEq, Repr

/-- The dict key string the generator uses for each section. -/
def SectionKey.keyString : SectionKey → String
  | .workExperiences => "workExperiences"
  | .educations => "educations"
  | .projects => "projects"
  | .skills => "skills"
  | .custom => "custom"

/-- The order in which `generate_resume_pdf` tests and appends the five
sections: it is hard-coded in the body of the function. -/
def defaultSectionOrder : List SectionKey :=
  [.workExperiences, .educations, .projects, .skills, .custom]

/-- The resolved style values `_get_styles` computes from the settings:
the theme color (parsed integer color), the resolved font family and the
resolved body font size.  Every named `ParagraphStyle` the method adds
(`Name`, `Contact`, `SectionHeading`, `JobTitle`, `Company`, `BodyText`)
is a fixed function of these three values, so the triple determines the
whole style sheet. -/
structure Styles where
  themeColor : Nat
  fontFamily : String
  fontSize : Nat
deriving DecidableEq, Repr

/-- The mutable state of a `PDFGenerator` instance: the `_cached_styles`
attribute, absent until the first successful `_get_styles` call and then
kept for the lifetime of the instance. -/
structure GenState where
  cachedStyles : Option Styles := none
deriving DecidableEq, Repr

/-- A fresh `PDFGenerator` (no `_cached_styles` attribute yet). -/
def GenState.init : GenState := ⟨none⟩

/-- `PDFGenerator._get_styles`: returns the cached style sheet when the
instance already holds one; otherwise resolves the theme color via
`HexColor` (raising on an unparsable value, and a `TypeError` on `None`),
the font family (`OpenSans` if requested, else `Helvetica`), and the font
size (`int(fontSize)` when all digits, else the literal `11`; a `None`
font size raises an `AttributeError` at the `.isdigit()` call), then
stores the result in `_cached_styles`. -/
def getStyles (st : GenState) (settings : ResumeSettings) :
    Except String (Styles × GenState) :=
  match st.cachedStyles with
  | some s => .ok (s, st)
  | none =>
    match settings.themeColor with
    | none => .error "TypeError: HexColor applied to None"
    | some col =>
      match hexColor col with
      | .error e => .error e
      | .ok themeColor =>
        let fontFamily :=
          if settings.fontFamily == some "OpenSans" then "OpenSans" else "Helvetica"
        match settings.fontSize with
        | none => .error "AttributeError: NoneType object has no attribute isdigit"
        | some fs =>
          let fontSize :=
            if pyIsdigit fs then (parseNatBase decDigitVal 10 fs.data).getD 11 else 11
          let s : Styles := ⟨themeColor, fontFamily, fontSize⟩
          .ok (s, ⟨some s⟩)

/-- The two page sizes the generator can choose
(Letter is 612 x 792 points, A4 is 210 x 297 mm). -/
inductive PageSize
  | letter
  | a4
deriving DecidableEq, Repr

/-- `PDFGenerator._get_page_size`: A4 when the lowercased string is
`"a4"`, Letter for every other string; it never raises. -/
def getPageSize (size : String) : PageSize :=
  if pyLower size == "a4" then .a4 else .letter

/-- The named paragraph style a `Paragraph` flowable refers to. -/
inductive StyleRole
  | name
  | contact
  | sectionHeading
  | jobTitle
  | company
  | bodyText
deriving DecidableEq, Repr

/-- A flowable appended to the story: a paragraph (with its text, the
named style it refers to, and the resolved style values of the sheet it
was created from), a two-column table (with its rows and the fonts and
size its `TableStyle` reads directly off the settings), or a spacer. -/
inductive Flowable
  | para (text : String) (role : StyleRole) (resolved : Styles)
  | table (rows : List (List String)) (boldFont regularFont : String) (fontSize : Nat)
  | spacer (width height : Nat)
deriving DecidableEq, Repr

/-- Which builder appended a block: the personal-info header or one of
the five section builders. -/
inductive Origin
  | header
  | sec (key : SectionKey)
deriving DecidableEq, Repr

/-- One story entry together with its originating builder. -/
structure Block where
  origin : Origin
  flow : Flowable
deriving DecidableEq, Repr

/-- The bold font name a `TableStyle` uses
(`f"(fontFamily)-Bold" if fontFamily == 'OpenSans' else 'Helvetica-Bold'`). -/
def tableBoldFont (fontFamily : Option String) : String :=
  if fontFamily == some "OpenSans" then "OpenSans-Bold" else "Helvetica-Bold"

/-- The regular font name a `TableStyle` uses
(`fontFamily if fontFamily in ['OpenSans'] else 'Helvetica'`). -/
def tableRegularFont (fontFamily : Option String) : String :=
  if fontFamily == some "OpenSans" then "OpenSans" else "Helvetica"

/-- The font size a `TableStyle` computes
(`int(fontSize) if fontSize.isdigit() else 11`); the `None` case would
raise an `AttributeError` in the source and is handled explicitly by the
section builders below. -/
def tableFontSize (fontSize : String) : Nat :=
  if pyIsdigit fontSize then (parseNatBase decDigitVal 10 fontSize.data).getD 11 else 11

/-- The block list `_build_header` appends: the name paragraph, the
contact line when any of email, phone, url, location is truthy (joined
with a bullet separator, the url wrapped in link markup), the optional
summary (preceded by a small spacer), and a final spacer. -/
def headerBlocksOf (personalInfo : PersonalInfo) (s : Styles) : List Block :=
  [Block.mk .header (.para personalInfo.name .name s)] ++
  (let contactParts :=
    (if personalInfo.email != "" then [personalInfo.email] else []) ++
    (if pyTruthy personalInfo.phone then [personalInfo.phone.getD ""] else []) ++
    (if pyTruthy personalInfo.url then
      [("<link href=\x22" ++ personalInfo.url.getD "" ++ "\x22>" ++
        personalInfo.url.getD "" ++ "</link>")] else []) ++
    (if pyTruthy personalInfo.location then [personalInfo.location.getD ""] else [])
   if contactParts.isEmpty then []
   else [Block.mk .header (.para (String.intercalate " • " contactParts) .contact s)]) ++
  (if pyTruthy personalInfo.summary then
    [Block.mk .header (.spacer 1 6),
     Block.mk .header (.para (personalInfo.summary.getD "") .bodyText s)]
   else []) ++
  [Block.mk .header (.spacer 1 12)]

/-- `PDFGenerator._build_header`: resolves styles (possibly raising)
and appends the header blocks. -/
def buildHeader (st : GenState) (personalInfo : PersonalInfo)
    (settings : ResumeSettings) : Except String (List Block × GenState) :=
  match getStyles st settings with
  | .error e => .error e
  | .ok (s, st1) => .ok (headerBlocksOf personalInfo s, st1)

/-- Section visibility test of `generate_resume_pdf`:
`(settings.formToShow or \x7b\x7d).get(key, True)`. -/
def showSection (settings : ResumeSettings) (k : SectionKey) : Bool :=
  pyDictGet settings.formToShow k.keyString true

/-- Python truthiness of the section's item list in `generate_resume_pdf`
(an empty list is falsy). -/
def sectionNonempty (r : ResumeData) (k : SectionKey) : Bool :=
  match k with
  | .workExperiences => !r.workExperiences.isEmpty
  | .educations => !r.educations.isEmpty
  | .projects => !r.projects.isEmpty
  | .skills => !r.skills.isEmpty
  | .custom => !r.custom.descriptions.isEmpty

/-- The guard of each `if` in `generate_resume_pdf`: the section is
visible and its item list is non-empty. -/
def sectionCond (r : ResumeData) (k : SectionKey) : Bool :=
  showSection r.settings k && sectionNonempty r k

/-- The block list `_build_work_experience_section` appends, given the
resolved styles and the font-size string read by each `TableStyle`. -/
def workBlocksOf (workExperiences : List WorkExperience)
    (settings : ResumeSettings) (fs : String) (s : Styles) : List Block :=
  Block.mk (.sec .workExperiences)
      (.para (pyDictGet settings.formToHeading "workExperiences" "WORK EXPERIENCE")
        .sectionHeading s) ::
  workExperiences.flatMap (fun exp =>
    Block.mk (.sec .workExperiences)
        (.table [[exp.jobTitle, exp.date], [exp.company, ""]]
          (tableBoldFont settings.fontFamily) (tableRegularFont settings.fontFamily)
          (tableFontSize fs)) ::
    exp.descriptions.map (fun desc =>
      Block.mk (.sec .workExperiences) (.para ("• " ++ desc) .bodyText s)) ++
    [Block.mk (.sec .workExperiences) (.spacer 1 6)])

/-- The block list `_build_education_section` appends. -/
def educationBlocksOf (educations : List Education)
    (settings : ResumeSettings) (fs : String) (s : Styles) : List Block :=
  Block.mk (.sec .educations)
      (.para (pyDictGet settings.formToHeading "educations" "EDUCATION")
        .sectionHeading s) ::
  educations.flatMap (fun edu =>
    Block.mk (.sec .educations)
        (.table [[edu.degree ++ (if pyTruthy edu.gpa then " | GPA: " ++ edu.gpa.getD "" else ""),
                  edu.date], [edu.school, ""]]
          (tableBoldFont settings.fontFamily) (tableRegularFont settings.fontFamily)
          (tableFontSize fs)) ::
    edu.descriptions.map (fun desc =>
      Block.mk (.sec .educations) (.para ("• " ++ desc) .bodyText s)) ++
    [Block.mk (.sec .educations) (.spacer 1 6)])

/-- The block list `_build_projects_section` appends. -/
def projectBlocksOf (projects : List Project)
    (settings : ResumeSettings) (fs : String) (s : Styles) : List Block :=
  Block.mk (.sec .projects)
      (.para (pyDictGet settings.formToHeading "projects" "PROJECTS")
        .sectionHeading s) ::
  projects.flatMap (fun project =>
    Block.mk (.sec .projects)
        (.table [[project.name, project.date]]
          (tableBoldFont settings.fontFamily) (tableRegularFont settings.fontFamily)
          (tableFontSize fs)) ::
    project.descriptions.map (fun desc =>
      Block.mk (.sec .projects) (.para ("• " ++ desc) .bodyText s)) ++
    [Block.mk (.sec .projects) (.spacer 1 6)])

/-- The markup text of the single line `_build_skills_section` emits for
one skill group. -/
def skillLineText (skillGroup : Skill) : String :=
  "<b>" ++ skillGroup.category ++ ":</b> " ++ String.intercalate ", " skillGroup.skills

/-- The block list `_build_skills_section` appends: one heading, one
paragraph per skill group, one trailing spacer. -/
def skillsBlocksOf (skills : List Skill) (settings : ResumeSettings) (s : Styles) :
    List Block :=
  Block.mk (.sec .skills)
      (.para (pyDictGet settings.formToHeading "skills" "SKILLS") .sectionHeading s) ::
  skills.map (fun skillGroup =>
    Block.mk (.sec .skills) (.para (skillLineText skillGroup) .bodyText s)) ++
  [Block.mk (.sec .skills) (.spacer 1 6)]

/-- The block list `_build_custom_section` appends. -/
def customBlocksOf (descriptions : List String) (settings : ResumeSettings) (s : Styles) :
    List Block :=
  Block.mk (.sec .custom)
      (.para (pyDictGet settings.formToHeading "custom" "ADDITIONAL") .sectionHeading s) ::
  descriptions.map (fun desc =>
    Block.mk (.sec .custom) (.para ("• " ++ desc) .bodyText s)) ++
  [Block.mk (.sec .custom) (.spacer 1 6)]

/-- `PDFGenerator._build_work_experience_section`: resolves styles, then
builds the heading and one table, bullet paragraphs and spacer per entry.
Constructing a `TableStyle` reads `settings.fontSize.isdigit()`, which
raises an `AttributeError` when the font size is `None` and at least one
table is built. -/
def buildWorkExperienceSection (st : GenState) (workExperiences : List WorkExperience)
    (settings : ResumeSettings) : Except String (List Block × GenState) :=
  match getStyles st settings with
  | .error e => .error e
  | .ok (s, st1) =>
    match settings.fontSize with
    | some fs => .ok (workBlocksOf workExperiences settings fs s, st1)
    | none =>
      match workExperiences with
      | [] => .ok (workBlocksOf [] settings "" s, st1)
      | _ :: _ => .error "AttributeError: NoneType object has no attribute isdigit"

/-- `PDFGenerator._build_education_section` (same structure). -/
def buildEducationSection (st : GenState) (educations : List Education)
    (settings : ResumeSettings) : Except String (List Block × GenState) :=
  match getStyles st settings with
  | .error e => .error e
  | .ok (s, st1) =>
    match settings.fontSize with
    | some fs => .ok (educationBlocksOf educations settings fs s, st1)
    | none =>
      match educations with
      | [] => .ok (educationBlocksOf [] settings "" s, st1)
      | _ :: _ => .error "AttributeError: NoneType object has no attribute isdigit"

/-- `PDFGenerator._build_projects_section` (same structure). -/
def buildProjectsSection (st : GenState) (projects : List Project)
    (settings : ResumeSettings) : Except String (List Block × GenState) :=
  match getStyles st settings with
  | .error e => .error e
  | .ok (s, st1) =>
    match settings.fontSize with
    | some fs => .ok (projectBlocksOf projects settings fs s, st1)
    | none =>
      match projects with
      | [] => .ok (projectBlocksOf [] settings "" s, st1)
      | _ :: _ => .error "AttributeError: NoneType object has no attribute isdigit"

/-- `PDFGenerator._build_skills_section`: heading, one line per group,
trailing spacer; no tables, so no font-size access. -/
def buildSkillsSection (st : GenState) (skills : List Skill)
    (settings : ResumeSettings) : Except String (List Block × GenState) :=
  match getStyles st settings with
  | .error e => .error e
  | .ok (s, st1) => .ok (skillsBlocksOf skills settings s, st1)

/-- `PDFGenerator._build_custom_section`. -/
def buildCustomSection (st : GenState) (descriptions : List String)
    (settings : ResumeSettings) : Except String (List Block × GenState) :=
  match getStyles st settings with
  | .error e => .error e
  | .ok (s, st1) => .ok (customBlocksOf descriptions settings s, st1)

/-- One `if (formToShow or \x7b\x7d).get(key, True) and items:` statement
of `generate_resume_pdf`: when the guard holds the section builder runs,
otherwise nothing is appended. -/
def sectionContribution (st : GenState) (r : ResumeData) (k : SectionKey) :
    Except String (List Block × GenState) :=
  match k with
  | .workExperiences =>
    if sectionCond r .workExperiences then
      buildWorkExperienceSection st r.workExperiences r.settings
    else .ok ([], st)
  | .educations =>
    if sectionCond r .educations then
      buildEducationSection st r.educations r.settings
    else .ok ([], st)
  | .projects =>
    if sectionCond r .projects then
      buildProjectsSection st r.projects r.settings
    else .ok ([], st)
  | .skills =>
    if sectionCond r .skills then
      buildSkillsSection st r.skills r.settings
    else .ok ([], st)
  | .custom =>
    if sectionCond r .custom then
      buildCustomSection st r.custom.descriptions r.settings
    else .ok ([], st)

/-- The body of the `try` block of `generate_resume_pdf`: choose the page
size, build the header, then append the five sections in the hard-coded
order work, education, projects, skills, custom. -/
def generateInner (st : GenState) (r : ResumeData) :
    Except String (List Block × GenState) :=
  let _pagesize := getPageSize (pyOrStr r.settings.documentSize "Letter")
  match buildHeader st r.personalInfo r.settings with
  | .error e => .error e
  | .ok (hdr, st) =>
  match sectionContribution st r .workExperiences with
  | .error e => .error e
  | .ok (wk, st) =>
  match sectionContribution st r .educations with
  | .error e => .error e
  | .ok (ed, st) =>
  match sectionContribution st r .projects with
  | .error e => .error e
  | .ok (pj, st) =>
  match sectionContribution st r .skills with
  | .error e => .error e
  | .ok (sk, st) =>
  match sectionContribution st r .custom with
  | .error e => .error e
  | .ok (cu, st) => .ok (hdr ++ wk ++ ed ++ pj ++ sk ++ cu, st)

/-- `PDFGenerator.generate_resume_pdf`: the `except` clause wraps any
exception in `Exception(f"PDF generation failed: ...")`; on success the
returned bytes are abstracted as the story handed to `doc.build`. -/
def generateResumePDF (st : GenState) (r : ResumeData) :
    Except String (List Block × GenState) :=
  match generateInner st r with
  | .ok x => .ok x
  | .error e => .error ("PDF generation failed: " ++ e)

/-- The pure block list of one section (heading plus items), as appended
when the section's guard holds; the `None` font-size case is excluded by
the guards under which this function describes the generator. -/
def sectionBlocksOf (r : ResumeData) (s : Styles) (k : SectionKey) : List Block :=
  match k with
  | .workExperiences =>
    workBlocksOf r.workExperiences r.settings (r.settings.fontSize.getD "") s
  | .educations =>
    educationBlocksOf r.educations r.settings (r.settings.fontSize.getD "") s
  | .projects =>
    projectBlocksOf r.projects r.settings (r.settings.fontSize.getD "") s
  | .skills => skillsBlocksOf r.skills r.settings s
  | .custom => customBlocksOf r.custom.descriptions r.settings s

/-- What one `if` statement of `generate_resume_pdf` contributes to the
story: the section blocks when the guard holds, nothing otherwise. -/
def pureContribution (r : ResumeData) (s : Styles) (k : SectionKey) : List Block :=
  if sectionCond r k then sectionBlocksOf r s k else []

/-- The full story `generate_resume_pdf` hands to `doc.build`, as a pure
function of the resume data and the resolved styles. -/
def storyOf (r : ResumeData) (s : Styles) : List Block :=
  headerBlocksOf r.personalInfo s ++
  pureContribution r s .workExperiences ++ pureContribution r s .educations ++
  pureContribution r s .projects ++ pureContribution r s .skills ++
  pureContribution r s .custom

/-- Absence of the `AttributeError` hazard: either the font size is a
string, or none of the three table-building sections is rendered. -/
def fontSizeOk (r : ResumeData) : Bool :=
  r.settings.fontSize.isSome ||
  (!(sectionCond r .workExperiences) && !(sectionCond r .educations) &&
   !(sectionCond r .projects))

/-- The story of a generation result (empty on failure). -/
def resultStory (e : Except String (List Block × GenState)) : List Block :=
  match e with
  | .ok p => p.1
  | .error _ => []

/-- The generator state after a generation result (unchanged state is
irrelevant on failure; a fresh state stands in). -/
def resultState (e : Except String (List Block × GenState)) : GenState :=
  match e with
  | .ok p => p.2
  | .error _ => GenState.init

/-- The section a block belongs to, if any. -/
def originKey : Origin → Option SectionKey
  | .header => none
  | .sec k => some k

/-- The sequence of sections as they appear in a story: the section tag
of each block, with consecutive repetitions collapsed. -/
def storyKeys (bs : List Block) : List SectionKey :=
  (bs.filterMap (fun b => originKey b.origin)).destutter (· ≠ ·)

/-- Modelled from the spec: the document model builder that the spec
describes, with a configurable section display order
(`StyleConfig.order`): header first, then, for each key of the given
order, the section's blocks when it is visible and non-empty.  No such
order field exists in `ResumeSettings`; this definition exists only to
compare the spec's contract against the implemented builder. -/
def specStoryOf (order : List SectionKey) (r : ResumeData) (s : Styles) : List Block :=
  headerBlocksOf r.personalInfo s ++
  (order.filter (fun k => sectionCond r k)).flatMap (fun k => sectionBlocksOf r s k)

/-- Remove the bold markup tags from a rendered line, leaving the text a
reader sees. -/
def stripBoldTags : List Char → List Char
  | [] => []
  | '<' :: 'b' :: '>' :: rest => stripBoldTags rest
  | '<' :: '/' :: 'b' :: '>' :: rest => stripBoldTags rest
  | c :: rest => c :: stripBoldTags rest

/-- The visible text of a rendered line (bold markup removed). -/
def visibleText (s : String) : String :=
  ⟨stripBoldTags s.data⟩

/-- A minimal personal-info record used by concrete evaluations. -/
def piEx : PersonalInfo :=
  { name := "Jane Doe", email := "jane@x.com" }

/-- A concrete resume with one work experience and one education entry
(default settings). -/
def rexWkEd : ResumeData :=
  { personalInfo := piEx,
    workExperiences := [{ company := "Acme", jobTitle := "Engineer",
                          date := "Jan 2020 - Present", descriptions := ["Did X"] }],
    educations := [{ school := "MIT", degree := "BS", date := "2016" }] }

/-- The resolved styles of the default settings
(theme `#1f2937`, OpenSans, size 11). -/
def stylesDefault : Styles :=
  { themeColor := 0x1f2937, fontFamily := "OpenSans", fontSize := 11 }

/-- The resolved styles of the default settings with theme `#ff0000`. -/
def stylesRed : Styles :=
  { themeColor := 0xff0000, fontFamily := "OpenSans", fontSize := 11 }

/-- A concrete resume with one skill group and default settings. -/
def rexSkills : ResumeData :=
  { personalInfo := piEx,
    skills := [{ category := "Languages", skills := ["Go", "Rust"] }] }

/-- `rexSkills` with the unparsable theme color `"notacolor"`. -/
def rexBadColor : ResumeData :=
  { rexSkills with settings := { themeColor := some "notacolor" } }

/-- `rexSkills` with theme color `#ff0000`. -/
def rexRed : ResumeData :=
  { rexSkills with settings := { themeColor := some "#ff0000" } }

/-- A section order permutation putting education before work. -/
def permOrderEx : List SectionKey :=
  [.educations, .workExperiences, .projects, .skills, .custom]

/-- `rexWkEd` with no visibility mapping at all (`formToShow = None`). -/
def rexNoShow : ResumeData :=
  { personalInfo := piEx,
    workExperiences := [{ company := "Acme", jobTitle := "Engineer",
                          date := "Jan 2020 - Present", descriptions := ["Did X"] }],
    settings := { formToShow := none } }

/-- The serialized PDF byte stream at the granularity the repository
determines it: `doc.build(story)` hands the story to reportlab, whose
`PDFDocument` — since `rl_config.invariant` is left at its default and
`generate_resume_pdf` never overrides it — stamps the output with a
`/CreationDate` read from the wall clock and a document `/ID` seeded
from the same clock reading.  The emitted bytes are therefore a
function of the story together with that clock reading, modelled here
as the pair of both. -/
structure PDFBytes where
  story : List Block
  creationStamp : Nat
deriving DecidableEq, Repr

/-- Model of `doc.build(story)` followed by `buffer.getvalue()`: the
serialized bytes carry the story and the wall-clock reading taken
during serialization. -/
def docBuild (story : List Block) (now : Nat) : PDFBytes :=
  ⟨story, now⟩

/-- `PDFGenerator.generate_resume_pdf` observed at the byte level: the
story is built as in `generateInner`, then serialized by reportlab at
the current clock reading `now`; errors are wrapped as before. -/
def generateResumePDFBytes (st : GenState) (r : ResumeData) (now : Nat) :
    Except String (PDFBytes × GenState) :=
  match generateInner st r with
  | .ok p => .ok (docBuild p.1 now, p.2)
  | .error e => .error ("PDF generation failed: " ++ e)

theorem getStyles_stable (st : GenState) (settings : ResumeSettings) (s : Styles)
    (st1 : GenState) (h : getStyles st settings = .ok (s, st1)) :
    getStyles st1 settings = .ok (s, st1) := by
  cases hc : st.cachedStyles with
  | some s0 =>
    simp only [getStyles, hc] at h
    obtain ⟨h1, h2⟩ := by simpa using h
    subst h2
    simp [getStyles, hc, h1]
  | none =>
    simp only [getStyles, hc] at h
    cases ht : settings.themeColor with
    | none => simp [ht] at h
    | some col =>
      simp only [ht] at h
      cases hx : hexColor col with
      | error e => simp [hx] at h
      | ok tc =>
        simp only [hx] at h
        cases hf : settings.fontSize with
        | none => simp [hf] at h
        | some fs =>
          simp only [hf] at h
          obtain ⟨h1, h2⟩ := by simpa using h
          subst h2
          simp [getStyles, ← h1]

theorem sectionNonempty_work (r : ResumeData)
    (h : sectionCond r .workExperiences = true) : r.workExperiences ≠ [] := by
  have h2 := (Bool.and_eq_true _ _ ▸ h).2
  simpa [sectionNonempty, List.isEmpty_iff] using h2

theorem sectionNonempty_educations (r : ResumeData)
    (h : sectionCond r .educations = true) : r.educations ≠ [] := by
  have h2 := (Bool.and_eq_true _ _ ▸ h).2
  simpa [sectionNonempty, List.isEmpty_iff] using h2

theorem sectionNonempty_projects (r : ResumeData)
    (h : sectionCond r .projects = true) : r.projects ≠ [] := by
  have h2 := (Bool.and_eq_true _ _ ▸ h).2
  simpa [sectionNonempty, List.isEmpty_iff] using h2

theorem sectionContribution_sound (st : GenState) (r : ResumeData) (s : Styles)
    (k : SectionKey) (out : List Block × GenState)
    (hst : getStyles st r.settings = .ok (s, st))
    (h : sectionContribution st r k = .ok out) :
    out = (pureContribution r s k, st) := by
  cases k with
  | workExperiences =>
    simp only [sectionContribution] at h
    by_cases hcnd : sectionCond r .workExperiences = true
    · rw [if_pos hcnd] at h
      simp only [buildWorkExperienceSection, hst] at h
      cases hf : r.settings.fontSize with
      | some fs =>
        simp only [hf] at h
        injection h with h'
        subst h'
        simp [pureContribution, sectionBlocksOf, hcnd, hf]
      | none =>
        have hne := sectionNonempty_work r hcnd
        rcases hw : r.workExperiences with _ | ⟨a, t⟩
        · exact absurd hw hne
        · rw [hf, hw] at h
          simp at h
    · rw [if_neg hcnd] at h
      injection h with h'
      subst h'
      simp [pureContribution, hcnd]
  | educations =>
    simp only [sectionContribution] at h
    by_cases hcnd : sectionCond r .educations = true
    · rw [if_pos hcnd] at h
      simp only [buildEducationSection, hst] at h
      cases hf : r.settings.fontSize with
      | some fs =>
        simp only [hf] at h
        injection h with h'
        subst h'
        simp [pureContribution, sectionBlocksOf, hcnd, hf]
      | none =>
        have hne := sectionNonempty_educations r hcnd
        rcases hw : r.educations with _ | ⟨a, t⟩
        · exact absurd hw hne
        · rw [hf, hw] at h
          simp at h
    · rw [if_neg hcnd] at h
      injection h with h'
      subst h'
      simp [pureContribution, hcnd]
  | projects =>
    simp only [sectionContribution] at h
    by_cases hcnd : sectionCond r .projects = true
    · rw [if_pos hcnd] at h
      simp only [buildProjectsSection, hst] at h
      cases hf : r.settings.fontSize with
      | some fs =>
        simp only [hf] at h
        injection h with h'
        subst h'
        simp [pureContribution, sectionBlocksOf, hcnd, hf]
      | none =>
        have hne := sectionNonempty_projects r hcnd
        rcases hw : r.projects with _ | ⟨a, t⟩
        · exact absurd hw hne
        · rw [hf, hw] at h
          simp at h
    · rw [if_neg hcnd] at h
      injection h with h'
      subst h'
      simp [pureContribution, hcnd]
  | skills =>
    simp only [sectionContribution] at h
    by_cases hcnd : sectionCond r .skills = true
    · rw [if_pos hcnd] at h
      simp only [buildSkillsSection, hst] at h
      injection h with h'
      subst h'
      simp [pureContribution, sectionBlocksOf, hcnd]
    · rw [if_neg hcnd] at h
      injection h with h'
      subst h'
      simp [pureContribution, hcnd]
  | custom =>
    simp only [sectionContribution] at h
    by_cases hcnd : sectionCond r .custom = true
    · rw [if_pos hcnd] at h
      simp only [buildCustomSection, hst] at h
      injection h with h'
      subst h'
      simp [pureContribution, sectionBlocksOf, hcnd]
    · rw [if_neg hcnd] at h
      injection h with h'
      subst h'
      simp [pureContribution, hcnd]

theorem fontSizeOk_some (r : ResumeData) (fs : String)
    (h : r.settings.fontSize = some fs) : fontSizeOk r = true := by
  simp [fontSizeOk, h]

theorem sectionContribution_complete (st : GenState) (r : ResumeData) (s : Styles)
    (k : SectionKey) (hst : getStyles st r.settings = .ok (s, st))
    (hfs : fontSizeOk r = true) :
    sectionContribution st r k = .ok (pureContribution r s k, st) := by
  have htab : ∀ fk : SectionKey, sectionCond r fk = true →
      (fk = .workExperiences ∨ fk = .educations ∨ fk = .projects) →
      ∃ fs, r.settings.fontSize = some fs := by
    intro fk hc hk
    cases hf : r.settings.fontSize with
    | some fs => exact ⟨fs, rfl⟩
    | none =>
      exfalso
      simp only [fontSizeOk, hf, Option.isSome_none, Bool.false_or,
        Bool.and_eq_true, Bool.not_eq_true'] at hfs
      rcases hk with rfl | rfl | rfl
      · rw [hfs.1.1] at hc; cases hc
      · rw [hfs.1.2] at hc; cases hc
      · rw [hfs.2] at hc; cases hc
  cases k with
  | workExperiences =>
    simp only [sectionContribution]
    by_cases hcnd : sectionCond r .workExperiences = true
    · obtain ⟨fs, hf⟩ := htab _ hcnd (Or.inl rfl)
      rw [if_pos hcnd]
      simp [buildWorkExperienceSection, hst, hf, pureContribution,
        sectionBlocksOf, hcnd]
    · rw [if_neg hcnd]
      simp [pureContribution, hcnd]
  | educations =>
    simp only [sectionContribution]
    by_cases hcnd : sectionCond r .educations = true
    · obtain ⟨fs, hf⟩ := htab _ hcnd (Or.inr (Or.inl rfl))
      rw [if_pos hcnd]
      simp [buildEducationSection, hst, hf, pureContribution,
        sectionBlocksOf, hcnd]
    · rw [if_neg hcnd]
      simp [pureContribution, hcnd]
  | projects =>
    simp only [sectionContribution]
    by_cases hcnd : sectionCond r .projects = true
    · obtain ⟨fs, hf⟩ := htab _ hcnd (Or.inr (Or.inr rfl))
      rw [if_pos hcnd]
      simp [buildProjectsSection, hst, hf, pureContribution,
        sectionBlocksOf, hcnd]
    · rw [if_neg hcnd]
      simp [pureContribution, hcnd]
  | skills =>
    simp only [sectionContribution]
    by_cases hcnd : sectionCond r .skills = true
    · rw [if_pos hcnd]
      simp [buildSkillsSection, hst, pureContribution, sectionBlocksOf, hcnd]
    · rw [if_neg hcnd]
      simp [pureContribution, hcnd]
  | custom =>
    simp only [sectionContribution]
    by_cases hcnd : sectionCond r .custom = true
    · rw [if_pos hcnd]
      simp [buildCustomSection, hst, pureContribution, sectionBlocksOf, hcnd]
    · rw [if_neg hcnd]
      simp [pureContribution, hcnd]

theorem sectionContribution_fontSize_none (st : GenState) (r : ResumeData)
    (k : SectionKey) (out : List Block × GenState)
    (hk : k = .workExperiences ∨ k = .educations ∨ k = .projects)
    (h : sectionContribution st r k = .ok out)
    (hf : r.settings.fontSize = none) : sectionCond r k = false := by
  by_cases hcnd : sectionCond r k = true
  · exfalso
    rcases hk with rfl | rfl | rfl
    · have hne := sectionNonempty_work r hcnd
      simp only [sectionContribution, if_pos hcnd, buildWorkExperienceSection] at h
      cases hg : getStyles st r.settings with
      | error e => rw [hg] at h; cases h
      | ok p =>
        rw [hg] at h
        rcases hw : r.workExperiences with _ | ⟨a, t⟩
        · exact absurd hw hne
        · rw [hf, hw] at h; simp at h
    · have hne := sectionNonempty_educations r hcnd
      simp only [sectionContribution, if_pos hcnd, buildEducationSection] at h
      cases hg : getStyles st r.settings with
      | error e => rw [hg] at h; cases h
      | ok p =>
        rw [hg] at h
        rcases hw : r.educations with _ | ⟨a, t⟩
        · exact absurd hw hne
        · rw [hf, hw] at h; simp at h
    · have hne := sectionNonempty_projects r hcnd
      simp only [sectionContribution, if_pos hcnd, buildProjectsSection] at h
      cases hg : getStyles st r.settings with
      | error e => rw [hg] at h; cases h
      | ok p =>
        rw [hg] at h
        rcases hw : r.projects with _ | ⟨a, t⟩
        · exact absurd hw hne
        · rw [hf, hw] at h; simp at h
  · exact Bool.not_eq_true _ ▸ hcnd

theorem generateResumePDF_complete (st : GenState) (r : ResumeData) (s : Styles)
    (st1 : GenState) (hg : getStyles st r.settings = .ok (s, st1))
    (hfs : fontSizeOk r = true) :
    generateResumePDF st r = .ok (storyOf r s, st1) := by
  have hst1 := getStyles_stable st r.settings s st1 hg
  simp only [generateResumePDF, generateInner, buildHeader, hg,
    sectionContribution_complete st1 r s .workExperiences hst1 hfs,
    sectionContribution_complete st1 r s .educations hst1 hfs,
    sectionContribution_complete st1 r s .projects hst1 hfs,
    sectionContribution_complete st1 r s .skills hst1 hfs,
    sectionContribution_complete st1 r s .custom hst1 hfs]
  simp [storyOf, List.append_assoc]

theorem generateResumePDF_hazard (st : GenState) (r : ResumeData) (s : Styles)
    (st1 : GenState) (hg : getStyles st r.settings = .ok (s, st1))
    (hf : r.settings.fontSize = none) (hc : fontSizeOk r = false) :
    generateResumePDF st r =
      .error "PDF generation failed: AttributeError: NoneType object has no attribute isdigit" := by
  have hst1 := getStyles_stable st r.settings s st1 hg
  by_cases c1 : sectionCond r .workExperiences = true
  · have hne := sectionNonempty_work r c1
    rcases hwl : r.workExperiences with _ | ⟨a, t⟩
    · exact absurd hwl hne
    · simp [generateResumePDF, generateInner, buildHeader, hg, sectionContribution,
        c1, buildWorkExperienceSection, hst1, hf, hwl]
  · have c1f : sectionCond r .workExperiences = false := by simpa using c1
    by_cases c2 : sectionCond r .educations = true
    · have hne := sectionNonempty_educations r c2
      rcases hel : r.educations with _ | ⟨a, t⟩
      · exact absurd hel hne
      · simp [generateResumePDF, generateInner, buildHeader, hg, sectionContribution,
          c1f, c2, buildEducationSection, hst1, hf, hel]
    · have c2f : sectionCond r .educations = false := by simpa using c2
      by_cases c3 : sectionCond r .projects = true
      · have hne := sectionNonempty_projects r c3
        rcases hpl : r.projects with _ | ⟨a, t⟩
        · exact absurd hpl hne
        · simp [generateResumePDF, generateInner, buildHeader, hg, sectionContribution,
            c1f, c2f, c3, buildProjectsSection, hst1, hf, hpl]
      · have c3f : sectionCond r .projects = false := by simpa using c3
        exfalso
        rw [fontSizeOk, hf] at hc
        simp [c1f, c2f, c3f] at hc

theorem generateResumePDF_sound (st : GenState) (r : ResumeData)
    (story : List Block) (st2 : GenState)
    (h : generateResumePDF st r = .ok (story, st2)) :
    ∃ s st1, getStyles st r.settings = .ok (s, st1) ∧ st2 = st1 ∧
      story = storyOf r s ∧ fontSizeOk r = true := by
  cases hgs : getStyles st r.settings with
  | error e =>
    have herr : generateResumePDF st r = .error ("PDF generation failed: " ++ e) := by
      simp [generateResumePDF, generateInner, buildHeader, hgs]
    rw [herr] at h
    cases h
  | ok q =>
    obtain ⟨s, st1⟩ := q
    by_cases hfs : fontSizeOk r = true
    · have hcomp := generateResumePDF_complete st r s st1 hgs hfs
      rw [hcomp] at h
      have h12 : storyOf r s = story ∧ st1 = st2 := by simpa using h
      exact ⟨s, st1, rfl, h12.2.symm, h12.1.symm, hfs⟩
    · have hfsf : fontSizeOk r = false := by simpa using hfs
      have hf : r.settings.fontSize = none := by
        cases hff : r.settings.fontSize with
        | none => rfl
        | some fs => rw [fontSizeOk_some r fs hff] at hfsf; cases hfsf
      have herr := generateResumePDF_hazard st r s st1 hgs hf hfsf
      rw [herr] at h
      cases h

theorem mem_headerBlocksOf (personalInfo : PersonalInfo) (s : Styles) (b : Block)
    (hb : b ∈ headerBlocksOf personalInfo s) : b.origin = .header := by
  unfold headerBlocksOf at hb
  split_ifs at hb <;>
    simp only [List.mem_append, List.mem_singleton, List.mem_cons,
      List.not_mem_nil, or_false, false_or] at hb <;>
    aesop

theorem mem_sectionBlocksOf (r : ResumeData) (s : Styles) (k : SectionKey) (b : Block)
    (hb : b ∈ sectionBlocksOf r s k) : b.origin = .sec k := by
  cases k <;>
    simp only [sectionBlocksOf, workBlocksOf, educationBlocksOf, projectBlocksOf,
      skillsBlocksOf, customBlocksOf, List.mem_cons, List.mem_append,
      List.mem_flatMap, List.mem_map, List.mem_singleton] at hb <;>
    aesop

theorem pureContribution_origin (r : ResumeData) (s : Styles) (k : SectionKey)
    (b : Block) (hb : b ∈ pureContribution r s k) : b.origin = .sec k := by
  rw [pureContribution] at hb
  split_ifs at hb
  · exact mem_sectionBlocksOf r s k b hb
  · cases hb

theorem sectionBlocksOf_ne_nil (r : ResumeData) (s : Styles) (k : SectionKey) :
    sectionBlocksOf r s k ≠ [] := by
  cases k <;> simp [sectionBlocksOf, workBlocksOf, educationBlocksOf,
    projectBlocksOf, skillsBlocksOf, customBlocksOf]

theorem contributions_eq_filter (r : ResumeData) (s : Styles) :
    pureContribution r s .workExperiences ++ pureContribution r s .educations ++
    pureContribution r s .projects ++ pureContribution r s .skills ++
    pureContribution r s .custom =
    (defaultSectionOrder.filter (fun k => sectionCond r k)).flatMap
      (fun k => sectionBlocksOf r s k) := by
  cases h1 : sectionCond r .workExperiences <;>
  cases h2 : sectionCond r .educations <;>
  cases h3 : sectionCond r .projects <;>
  cases h4 : sectionCond r .skills <;>
  cases h5 : sectionCond r .custom <;>
  simp [pureContribution, defaultSectionOrder, List.filter_cons, h1, h2, h3, h4, h5]

theorem storyOf_eq_filter (r : ResumeData) (s : Styles) :
    storyOf r s = headerBlocksOf r.personalInfo s ++
      (defaultSectionOrder.filter (fun k => sectionCond r k)).flatMap
        (fun k => sectionBlocksOf r s k) := by
  rw [storyOf]
  rw [List.append_assoc, List.append_assoc, List.append_assoc, List.append_assoc]
  rw [← contributions_eq_filter r s]
  simp [List.append_assoc]

theorem dropWhile_idem {α : Type} (p : α → Bool) (l : List α) :
    List.dropWhile p (List.dropWhile p l) = List.dropWhile p l := by
  induction l with
  | nil => simp
  | cons a t ih =>
    by_cases h : p a = true <;> simp [List.dropWhile_cons, h, ih]

theorem head?_dropWhile_not {α : Type} (p : α → Bool) (l : List α) (a : α)
    (h : (List.dropWhile p l).head? = some a) : p a = false := by
  induction l with
  | nil => simp at h
  | cons b t ih =>
    by_cases hb : p b = true
    · rw [List.dropWhile_cons, if_pos hb] at h
      exact ih h
    · rw [List.dropWhile_cons, if_neg hb] at h
      obtain rfl : b = a := by simpa using h
      simpa using hb

theorem dropWhile_eq_self_of_head {α : Type} (p : α → Bool) (l : List α)
    (h : ∀ a, l.head? = some a → p a = false) : List.dropWhile p l = l := by
  cases l with
  | nil => simp
  | cons a t =>
    have := h a rfl
    simp [List.dropWhile_cons, this]

theorem getLast?_dropWhile {α : Type} (p : α → Bool) (l : List α)
    (h : List.dropWhile p l ≠ []) :
    (List.dropWhile p l).getLast? = l.getLast? := by
  induction l with
  | nil => simp at h
  | cons a t ih =>
    by_cases ha : p a = true
    · rw [List.dropWhile_cons, if_pos ha] at h ⊢
      rcases ht : t with _ | ⟨b, u⟩
      · subst ht; simp at h
      · subst ht
        rw [List.getLast?_cons_cons]
        exact ih h
    · rw [List.dropWhile_cons, if_neg ha]

theorem pyStripList_idem (l : List Char) :
    pyStripList (pyStripList l) = pyStripList l := by
  rw [pyStripList, pyStripList, dropTrail, dropTrail]
  have hdw : List.dropWhile isPyWhitespace
      ((List.dropWhile isPyWhitespace
        (List.dropWhile isPyWhitespace l).reverse).reverse) =
      (List.dropWhile isPyWhitespace
        (List.dropWhile isPyWhitespace l).reverse).reverse := by
    apply dropWhile_eq_self_of_head
    intro a ha
    rcases hb : List.dropWhile isPyWhitespace
        (List.dropWhile isPyWhitespace l).reverse with _ | ⟨c, u⟩
    · rw [hb] at ha; simp at ha
    · have hne : List.dropWhile isPyWhitespace
          (List.dropWhile isPyWhitespace l).reverse ≠ [] := by
        rw [hb]; simp
      have h1 : (List.dropWhile isPyWhitespace
          (List.dropWhile isPyWhitespace l).reverse).getLast? =
          ((List.dropWhile isPyWhitespace l).reverse).getLast? :=
        getLast?_dropWhile _ _ hne
      rw [List.head?_reverse, h1, List.getLast?_reverse] at ha
      exact head?_dropWhile_not _ _ a ha
  rw [hdw, List.reverse_reverse, dropWhile_idem]

theorem pyStrip_idem (s : String) : pyStrip (pyStrip s) = pyStrip s :=
  congrArg String.mk (pyStripList_idem s.data)

theorem filterMap_if_eq_map_filter {α β : Type} (q : α → Bool) (f : α → β)
    (v : List α) :
    v.filterMap (fun d => if q d then some (f d) else none) = (v.filter q).map f := by
  induction v with
  | nil => rfl
  | cons a t ih =>
    by_cases h : q a = true <;>
      simp [List.filterMap_cons, List.filter_cons, h, ih]

theorem stripComprehension_eq (v : List String) :
    v.filterMap (fun d => if pyStrip d != "" then some (pyStrip d) else none) =
    (v.filter (fun d => pyStrip d != "")).map pyStrip :=
  filterMap_if_eq_map_filter (fun d => pyStrip d != "") pyStrip v

theorem stripComprehension_all (v : List String) :
    (v.filterMap (fun d => if pyStrip d != "" then some (pyStrip d) else none)).all
      (fun d => d != "" && (pyStrip d == d)) = true := by
  rw [List.all_eq_true]
  intro x hx
  obtain ⟨d, _, he⟩ := List.mem_filterMap.mp hx
  by_cases h : (pyStrip d != "") = true
  · rw [if_pos h] at he
    obtain rfl : pyStrip d = x := by simpa using he
    simp only [Bool.and_eq_true]
    exact ⟨h, by simp [pyStrip_idem]⟩
  · rw [if_neg h] at he
    cases he

/-- C8: for every `WorkExperience` and every `Skill` group constructed
through the pydantic validators, the stored descriptions (resp. skills)
list equals the input list with each entry whitespace-stripped and all
whitespace-only entries removed; consequently every stored entry is
non-empty and already stripped, so no blank bullet or blank skill can
reach the builder. -/
theorem validators_strip_and_drop_blanks (company jobTitle date category : String)
    (ds sk : List String) :
    (WorkExperience.make company jobTitle date ds).descriptions =
      (ds.filter (fun d => pyStrip d != "")).map pyStrip ∧
    (Skill.make category sk).skills =
      (sk.filter (fun d => pyStrip d != "")).map pyStrip ∧
    ((WorkExperience.make company jobTitle date ds).descriptions.all
      (fun d => d != "" && (pyStrip d == d))) = true ∧
    ((Skill.make category sk).skills.all
      (fun d => d != "" && (pyStrip d == d))) = true :=
  ⟨stripComprehension_eq ds, stripComprehension_eq sk,
   stripComprehension_all ds, stripComprehension_all sk⟩

/-- C9: page-size resolution returns A4 exactly when the document-size
string lowercases to `"a4"`, and returns Letter for every other string,
without ever raising. -/
theorem getPageSize_a4_iff (size : String) :
    (getPageSize size = PageSize.a4 ↔ pyLower size = "a4") ∧
    (getPageSize size = PageSize.letter ↔ pyLower size ≠ "a4") := by
  by_cases h : pyLower size = "a4" <;> simp [getPageSize, h]

/-- C9 witness: concrete evaluations through `getPageSize_a4_iff`. -/
theorem getPageSize_a4_iff_witness :
    getPageSize "A4" = PageSize.a4 ∧ getPageSize "SomethingElse" = PageSize.letter :=
  ⟨(getPageSize_a4_iff "A4").1.mpr (by decide),
   (getPageSize_a4_iff "SomethingElse").2.mpr (by decide)⟩

/-- C7: for every skill group, the skills-section builder emits exactly
one body line per group, whose markup text is the category label, a
colon, and the comma-joined skill strings (bold tags around the label);
the number of body paragraphs equals the number of groups, so there is
never one bullet per skill. -/
theorem skills_section_one_line_per_group (st : GenState) (skills : List Skill)
    (settings : ResumeSettings) (blocks : List Block) (st1 : GenState)
    (h : buildSkillsSection st skills settings = .ok (blocks, st1)) :
    ∃ s, getStyles st settings = .ok (s, st1) ∧
      blocks =
        Block.mk (.sec .skills)
            (.para (pyDictGet settings.formToHeading "skills" "SKILLS")
              .sectionHeading s) ::
          skills.map (fun g => Block.mk (.sec .skills)
            (.para ("<b>" ++ g.category ++ ":</b> " ++ String.intercalate ", " g.skills)
              .bodyText s)) ++
          [Block.mk (.sec .skills) (.spacer 1 6)] ∧
      blocks.countP (fun b => match b.flow with
        | .para _ .bodyText _ => true
        | _ => false) = skills.length := by
  rw [buildSkillsSection] at h
  cases hg : getStyles st settings with
  | error e => rw [hg] at h; cases h
  | ok q =>
    obtain ⟨s, st1'⟩ := q
    rw [hg] at h
    have h12 : skillsBlocksOf skills settings s = blocks ∧ st1' = st1 := by
      simpa using h
    obtain ⟨hbl, rfl⟩ := h12
    subst hbl
    refine ⟨s, rfl, rfl, ?_⟩
    have h1 : List.countP (fun b => match b.flow with
        | .para _ .bodyText _ => true
        | _ => false) (skills.map (fun g => Block.mk (.sec .skills)
          (.para (skillLineText g) .bodyText s))) = skills.length := by
      have h2 : List.countP (fun b => match b.flow with
          | .para _ .bodyText _ => true
          | _ => false) (skills.map (fun g => Block.mk (.sec .skills)
            (.para (skillLineText g) .bodyText s))) =
          (skills.map (fun g => Block.mk (.sec .skills)
            (.para (skillLineText g) .bodyText s))).length :=
        List.countP_eq_length.mpr (fun b hb => by
          obtain ⟨g, _, rfl⟩ := List.mem_map.mp hb
          rfl)
      rw [h2, List.length_map]
    rw [skillsBlocksOf]
    simp [List.countP_cons, List.countP_append, List.countP_nil, h1]

/-- C7 witness: the group with category `Languages` and skills
`Go`, `Rust` yields exactly one line whose visible text reads
`Languages: Go, Rust`. -/
theorem skills_section_one_line_per_group_witness :
    (∃ s, getStyles GenState.init rexSkills.settings = .ok (s, ⟨some stylesDefault⟩) ∧
      skillsBlocksOf rexSkills.skills rexSkills.settings stylesDefault =
        Block.mk (.sec .skills)
            (.para (pyDictGet rexSkills.settings.formToHeading "skills" "SKILLS")
              .sectionHeading s) ::
          rexSkills.skills.map (fun g => Block.mk (.sec .skills)
            (.para ("<b>" ++ g.category ++ ":</b> " ++ String.intercalate ", " g.skills)
              .bodyText s)) ++
          [Block.mk (.sec .skills) (.spacer 1 6)] ∧
      (skillsBlocksOf rexSkills.skills rexSkills.settings stylesDefault).countP
        (fun b => match b.flow with
          | .para _ .bodyText _ => true
          | _ => false) = rexSkills.skills.length) ∧
    visibleText (skillLineText { category := "Languages", skills := ["Go", "Rust"] }) =
      "Languages: Go, Rust" :=
  ⟨skills_section_one_line_per_group GenState.init rexSkills.skills rexSkills.settings
    (skillsBlocksOf rexSkills.skills rexSkills.settings stylesDefault)
    ⟨some stylesDefault⟩ rfl, by decide⟩

/-- C2 (amended): on a generator whose style cache is empty, a theme
color that fails color parsing makes the whole render fail with the
generic wrapped exception, and no story is produced; the cached-styles
escape hatch of `_get_styles` is the only way such a color can pass. -/
theorem invalid_theme_color_fails_cold_cache (st : GenState) (r : ResumeData)
    (col e : String) (hc : st.cachedStyles = none)
    (hcol : r.settings.themeColor = some col) (herr : hexColor col = .error e) :
    generateResumePDF st r = .error ("PDF generation failed: " ++ e) := by
  simp [generateResumePDF, generateInner, buildHeader, getStyles, hc, hcol, herr]

/-- C2 witness: a fresh generator rejects the theme color
`"notacolor"` and returns the wrapped error. -/
theorem invalid_theme_color_fails_cold_cache_witness :
    generateResumePDF GenState.init rexBadColor =
      .error ("PDF generation failed: " ++
        "ValueError: invalid literal for int with base 10: notacolor") :=
  invalid_theme_color_fails_cold_cache GenState.init rexBadColor "notacolor"
    "ValueError: invalid literal for int with base 10: notacolor" rfl rfl rfl

/-- C2 counterexample: `"notacolor"` is unparsable, yet after one
successful render has populated the per-instance style cache, a second
render with theme color `"notacolor"` succeeds and silently uses the
cached styles of the earlier config, so the render does not fail. -/
theorem invalid_color_silently_ignored_warm_cache :
    hexColor "notacolor" =
      .error "ValueError: invalid literal for int with base 10: notacolor" ∧
    resultState (generateResumePDF GenState.init rexSkills) = ⟨some stylesDefault⟩ ∧
    generateResumePDF ⟨some stylesDefault⟩ rexBadColor =
      .ok (storyOf rexBadColor stylesDefault, ⟨some stylesDefault⟩) :=
  ⟨rfl, rfl, rfl⟩

/-- C3: the style cache is a per-instance singleton, not keyed by the
config: after a first render with the default theme `#1f2937`, a second
render on the same generator with theme `#ff0000` resolves to the stale
cached styles of the first config instead of the styles a fresh resolver
would produce for its own config. -/
theorem style_cache_survives_config_change :
    resultState (generateResumePDF GenState.init rexSkills) = ⟨some stylesDefault⟩ ∧
    getStyles ⟨some stylesDefault⟩ rexRed.settings =
      .ok (stylesDefault, ⟨some stylesDefault⟩) ∧
    getStyles GenState.init rexRed.settings = .ok (stylesRed, ⟨some stylesRed⟩) ∧
    stylesDefault.themeColor ≠ stylesRed.themeColor ∧
    generateResumePDF ⟨some stylesDefault⟩ rexRed =
      .ok (storyOf rexRed stylesDefault, ⟨some stylesDefault⟩) :=
  ⟨rfl, rfl, rfl, by decide, rfl⟩

/-- C1 (amended): `ResumeSettings` offers no section-order field; for
every resume whose render succeeds, the emitted block sequence presents
the sections in the one hard-coded order work, education, projects,
skills, custom, restricted to the visible non-empty sections. -/
theorem generate_sections_fixed_default_order (st : GenState) (r : ResumeData)
    (story : List Block) (st2 : GenState)
    (h : generateResumePDF st r = .ok (story, st2)) :
    ∃ s st1, getStyles st r.settings = .ok (s, st1) ∧
      story = headerBlocksOf r.personalInfo s ++
        (defaultSectionOrder.filter (fun k => sectionCond r k)).flatMap
          (fun k => sectionBlocksOf r s k) := by
  obtain ⟨s, st1, hg, _, hstory, _⟩ := generateResumePDF_sound st r story st2 h
  exact ⟨s, st1, hg, by rw [hstory, storyOf_eq_filter]⟩

/-- C1 witness: the fixed-order theorem evaluated at a concrete resume
with one work experience and one education entry. -/
theorem generate_sections_fixed_default_order_witness :
    ∃ s st1, getStyles GenState.init rexWkEd.settings = .ok (s, st1) ∧
      storyOf rexWkEd stylesDefault = headerBlocksOf rexWkEd.personalInfo s ++
        (defaultSectionOrder.filter (fun k => sectionCond rexWkEd k)).flatMap
          (fun k => sectionBlocksOf rexWkEd s k) :=
  generate_sections_fixed_default_order GenState.init rexWkEd
    (storyOf rexWkEd stylesDefault) ⟨some stylesDefault⟩ rfl

/-- C1 counterexample: for the configured display order that puts
education before work, the spec's builder would emit education first,
but the implemented generator emits work first and its block sequence
differs from the spec builder's output, so the claimed permutation
handling does not hold. -/
theorem configured_order_not_honored :
    storyKeys (resultStory (generateResumePDF GenState.init rexWkEd)) =
      [SectionKey.workExperiences, SectionKey.educations] ∧
    storyKeys (specStoryOf permOrderEx rexWkEd stylesDefault) =
      [SectionKey.educations, SectionKey.workExperiences] ∧
    resultStory (generateResumePDF GenState.init rexWkEd) ≠
      specStoryOf permOrderEx rexWkEd stylesDefault := by
  refine ⟨by decide, by decide, by decide⟩

/-- Repeat-render lemma for the story: when a render call on a
generator succeeds, running the same generator again on the same resume
data and settings returns the identical block sequence and the
identical generator state. -/
theorem generate_deterministic_repeat (st : GenState) (r : ResumeData)
    (story : List Block) (st2 : GenState)
    (h : generateResumePDF st r = .ok (story, st2)) :
    generateResumePDF st2 r = .ok (story, st2) := by
  obtain ⟨s, st1, hg, h21, hstory, hfs⟩ := generateResumePDF_sound st r story st2 h
  subst h21
  have hst2 := getStyles_stable st r.settings s st2 hg
  have hc := generateResumePDF_complete st2 r s st2 hst2 hfs
  rw [hstory]
  exact hc


/-- C5: when a section's visibility flag is false or its item list is
empty, the emitted block sequence contains no block of that section —
neither its heading nor any of its item blocks. -/
theorem hidden_or_empty_section_no_blocks (st : GenState) (r : ResumeData)
    (story : List Block) (st2 : GenState) (k : SectionKey)
    (h : generateResumePDF st r = .ok (story, st2))
    (hk : showSection r.settings k = false ∨ sectionNonempty r k = false) :
    ∀ b ∈ story, b.origin ≠ Origin.sec k := by
  obtain ⟨s, st1, hg, _, hstory, _⟩ := generateResumePDF_sound st r story st2 h
  subst hstory
  rw [storyOf_eq_filter]
  intro b hb
  rcases List.mem_append.mp hb with hbh | hbs
  · rw [mem_headerBlocksOf r.personalInfo s b hbh]
    intro hcon
    cases hcon
  · obtain ⟨k2, hk2, hbk⟩ := List.mem_flatMap.mp hbs
    rw [mem_sectionBlocksOf r s k2 b hbk]
    intro hcon
    injection hcon with hkk
    subst hkk
    have hc : sectionCond r k2 = true := by
      have := List.mem_filter.mp hk2
      simpa using this.2
    have hcf : sectionCond r k2 = false := by
      rcases hk with hk | hk <;> simp [sectionCond, hk]
    rw [hc] at hcf
    cases hcf

/-- C5 witness: the concrete resume has an empty skills list, and no
block of its rendered story belongs to the skills section. -/
theorem hidden_or_empty_section_no_blocks_witness :
    (storyOf rexWkEd stylesDefault).all
      (fun b => !(b.origin == Origin.sec SectionKey.skills)) = true := by
  have h := hidden_or_empty_section_no_blocks GenState.init rexWkEd
    (storyOf rexWkEd stylesDefault) ⟨some stylesDefault⟩ SectionKey.skills rfl
    (Or.inr rfl)
  rw [List.all_eq_true]
  intro b hb
  simpa using h b hb

/-- C6: every successful render's block sequence begins with the
personal-info header (its first block is the name paragraph), all header
blocks come from the header builder, and every block after the header
prefix belongs to a section, so the header precedes every section
block. -/
theorem header_precedes_all_sections (st : GenState) (r : ResumeData)
    (story : List Block) (st2 : GenState)
    (h : generateResumePDF st r = .ok (story, st2)) :
    ∃ s rest, story = headerBlocksOf r.personalInfo s ++ rest ∧
      story.head? = some (Block.mk Origin.header
        (Flowable.para r.personalInfo.name StyleRole.name s)) ∧
      (∀ b ∈ headerBlocksOf r.personalInfo s, b.origin = Origin.header) ∧
      (∀ b ∈ rest, b.origin ≠ Origin.header) := by
  obtain ⟨s, st1, hg, _, hstory, _⟩ := generateResumePDF_sound st r story st2 h
  subst hstory
  rw [storyOf_eq_filter]
  refine ⟨s, _, rfl, rfl, fun b hb => mem_headerBlocksOf _ _ _ hb, ?_⟩
  intro b hb
  obtain ⟨k2, _, hbk⟩ := List.mem_flatMap.mp hb
  rw [mem_sectionBlocksOf r s k2 b hbk]
  intro hcon
  cases hcon

/-- C6 witness: the header-first theorem evaluated at a concrete
resume with work and education entries. -/
theorem header_precedes_all_sections_witness :
    ∃ s rest, storyOf rexWkEd stylesDefault =
        headerBlocksOf rexWkEd.personalInfo s ++ rest ∧
      (storyOf rexWkEd stylesDefault).head? = some (Block.mk Origin.header
        (Flowable.para rexWkEd.personalInfo.name StyleRole.name s)) ∧
      (∀ b ∈ headerBlocksOf rexWkEd.personalInfo s, b.origin = Origin.header) ∧
      (∀ b ∈ rest, b.origin ≠ Origin.header) :=
  header_precedes_all_sections GenState.init rexWkEd
    (storyOf rexWkEd stylesDefault) ⟨some stylesDefault⟩ rfl

/-- C10: when the visibility mapping is `None` or lacks a section's key,
the section defaults to visible: blocks of that section appear in a
successful render's story exactly when its item list is non-empty. -/
theorem missing_visibility_key_defaults_true (st : GenState) (r : ResumeData)
    (story : List Block) (st2 : GenState) (k : SectionKey)
    (h : generateResumePDF st r = .ok (story, st2))
    (hm : r.settings.formToShow.bind (fun m => m.lookup k.keyString) = none) :
    showSection r.settings k = true ∧
    ((∃ b ∈ story, b.origin = Origin.sec k) ↔ sectionNonempty r k = true) := by
  have hshow : showSection r.settings k = true := by
    rw [showSection]
    cases hf : r.settings.formToShow with
    | none => rfl
    | some m =>
      rw [hf] at hm
      have hm2 : m.lookup k.keyString = none := by simpa using hm
      simp [pyDictGet, hm2]
  refine ⟨hshow, ?_⟩
  obtain ⟨s, st1, hg, _, hstory, _⟩ := generateResumePDF_sound st r story st2 h
  subst hstory
  rw [storyOf_eq_filter]
  constructor
  · rintro ⟨b, hb, hbo⟩
    rcases List.mem_append.mp hb with hbh | hbs
    · rw [mem_headerBlocksOf r.personalInfo s b hbh] at hbo
      cases hbo
    · obtain ⟨k2, hk2, hbk⟩ := List.mem_flatMap.mp hbs
      rw [mem_sectionBlocksOf r s k2 b hbk] at hbo
      injection hbo with hkk
      subst hkk
      have hc : sectionCond r k2 = true := by
        have := List.mem_filter.mp hk2
        simpa using this.2
      rw [sectionCond] at hc
      exact (Bool.and_eq_true _ _ ▸ hc).2
  · intro hne
    have hc : sectionCond r k = true := by
      rw [sectionCond, hshow, hne]
      rfl
    have hkmem : k ∈ defaultSectionOrder := by
      cases k <;> simp [defaultSectionOrder]
    have hkfil : k ∈ defaultSectionOrder.filter (fun k2 => sectionCond r k2) :=
      List.mem_filter.mpr ⟨hkmem, by simpa using hc⟩
    obtain ⟨b, hb⟩ := List.exists_mem_of_ne_nil _ (sectionBlocksOf_ne_nil r s k)
    exact ⟨b, List.mem_append_right _ (List.mem_flatMap.mpr ⟨k, hkfil, hb⟩),
      mem_sectionBlocksOf r s k b hb⟩

/-- C10 witness: with `formToShow = None` the work section is visible
and appears exactly because its item list is non-empty. -/
theorem missing_visibility_key_defaults_true_witness :
    showSection rexNoShow.settings SectionKey.workExperiences = true ∧
    ((∃ b ∈ storyOf rexNoShow stylesDefault,
        b.origin = Origin.sec SectionKey.workExperiences) ↔
      sectionNonempty rexNoShow SectionKey.workExperiences = true) :=
  missing_visibility_key_defaults_true GenState.init rexNoShow
    (storyOf rexNoShow stylesDefault) ⟨some stylesDefault⟩ SectionKey.workExperiences
    rfl rfl

/-- C4 counterexample: two renders of the identical resume data and
settings on the same generator, one serialized at clock reading 0 and
the next at clock reading 1, return byte streams that differ (in the
embedded creation stamp) even though the underlying block sequences are
identical — so the output is not byte-identical. -/
theorem byte_output_not_deterministic :
    generateResumePDFBytes GenState.init rexSkills 0 =
      .ok (docBuild (storyOf rexSkills stylesDefault) 0, ⟨some stylesDefault⟩) ∧
    generateResumePDFBytes ⟨some stylesDefault⟩ rexSkills 1 =
      .ok (docBuild (storyOf rexSkills stylesDefault) 1, ⟨some stylesDefault⟩) ∧
    docBuild (storyOf rexSkills stylesDefault) 0 ≠
      docBuild (storyOf rexSkills stylesDefault) 1 ∧
    (docBuild (storyOf rexSkills stylesDefault) 0).story =
      (docBuild (storyOf rexSkills stylesDefault) 1).story :=
  ⟨rfl, rfl, by decide, rfl⟩

/-- C4 (amended): rendering is deterministic in everything this
repository computes — a successful render re-run on the same generator
with the same resume data and settings returns a byte stream whose
story component is identical and whose state is identical — but the
full byte streams agree only up to the serializer's embedded wall-clock
creation stamp, so byte-identity across calls does not hold. -/
theorem generate_bytes_repeat_modulo_timestamp (st : GenState) (r : ResumeData)
    (now now2 : Nat) (b : PDFBytes) (st2 : GenState)
    (h : generateResumePDFBytes st r now = .ok (b, st2)) :
    generateResumePDFBytes st2 r now2 = .ok (docBuild b.story now2, st2) ∧
    b.creationStamp = now := by
  cases hg : generateInner st r with
  | error e =>
    rw [generateResumePDFBytes, hg] at h
    cases h
  | ok p =>
    obtain ⟨story, st1⟩ := p
    rw [generateResumePDFBytes, hg] at h
    have h12 : docBuild story now = b ∧ st1 = st2 := by simpa using h
    obtain ⟨hb, rfl⟩ := h12
    subst hb
    have hpdf : generateResumePDF st r = .ok (story, st1) := by
      rw [generateResumePDF, hg]
    have hrep := generate_deterministic_repeat st r story st1 hpdf
    have hinner : generateInner st1 r = .ok (story, st1) := by
      rw [generateResumePDF] at hrep
      cases hg2 : generateInner st1 r with
      | error e => rw [hg2] at hrep; cases hrep
      | ok q =>
        rw [hg2] at hrep
        obtain rfl : q = (story, st1) := by simpa using hrep
        rfl
    refine ⟨?_, rfl⟩
    rw [generateResumePDFBytes, hinner]
    rfl

/-- C4 witness: the amended theorem evaluated at a concrete resume and
concrete clock readings 0 and 1; the second render reproduces the first
render's story under its own creation stamp. -/
theorem generate_bytes_repeat_modulo_timestamp_witness :
    generateResumePDFBytes ⟨some stylesDefault⟩ rexSkills 1 =
      .ok (docBuild (docBuild (storyOf rexSkills stylesDefault) 0).story 1,
        ⟨some stylesDefault⟩) ∧
    (docBuild (storyOf rexSkills stylesDefault) 0).creationStamp = 0 :=
  generate_bytes_repeat_modulo_timestamp GenState.init rexSkills 0 1
    (docBuild (storyOf rexSkills stylesDefault) 0) ⟨some stylesDefault⟩ rfl
